import Mathlib

/-!
Shallow embedding of the UAE transfer-pricing assessment core (main.py).

Parties are Python dicts read through `.get` with per-field defaults; we
model a party as a structure carrying every field the core ever reads,
where a caller models an absent dict key by the corresponding `.get`
default (0 for numbers, false for booleans, the empty string for strings,
and 1 for `layersOfOwnership`). Numeric fields are `Int`: the UI supplies
integers and the core only adds and compares them.
-/

namespace TPA

/-- Thresholds from CONFIG in main.py. -/
def OWNERSHIP_THRESHOLD : Int := 50

def CONTROL_THRESHOLD : Int := 50

def MAX_FAMILY_DEGREE : Int := 4

def REVENUE_THRESHOLD : Int := 200000000

def MNE_GROUP_CONSOLIDATED_THRESHOLD : Int := 3150000000

structure OwnershipFields where
  direct : Int
  indirect : Int
deriving DecidableEq

/-- One party record, with every dict key the core reads. -/
structure Party where
  type : String
  crossBorder : Bool
  highValueTransactions : Bool
  layersOfOwnership : Int
  companyType : String
  relationship_type : String
  isDirector : Bool
  isOfficer : Bool
  personalOwnership : Int
  familyOwnership : Int
  revenue : Int
  groupConsolidatedRevenue : Int
  ownership : OwnershipFields
  votingRights : Int
  profitEntitlement : Int
  managementControl : Int
deriving DecidableEq

/-- A party dict with no optional key present: every `.get` yields its default. -/
def emptyParty : Party :=
  { type := ""
    crossBorder := false
    highValueTransactions := false
    layersOfOwnership := 1
    companyType := ""
    relationship_type := ""
    isDirector := false
    isOfficer := false
    personalOwnership := 0
    familyOwnership := 0
    revenue := 0
    groupConsolidatedRevenue := 0
    ownership := { direct := 0, indirect := 0 }
    votingRights := 0
    profitEntitlement := 0
    managementControl := 0 }

/-- Python str.upper for the ASCII type strings the tool uses: uppercase
every character. -/
def pyUpper (s : String) : String :=
  ⟨s.data.map Char.toUpper⟩

namespace FamilyRelationshipAnalyzer

/-- The self.family_degrees table: degree paired with its recognized labels. -/
def family_degrees : List (Int × List String) :=
  [ (1, ["parent", "child", "spouse_parent", "spouse_child"])
  , (2, ["grandparent", "grandchild", "sibling", "spouse_sibling"])
  , (3, ["great_grandparent", "great_grandchild", "uncle", "aunt", "niece", "nephew"])
  , (4, ["great_great_grandparent", "great_great_grandchild", "first_cousin"]) ]

/-- calculate_degree: first degree whose label list holds the label, else 999. -/
def calculate_degree (rt : String) : Int :=
  match family_degrees.find? (fun p => p.2.contains rt) with
  | some p => p.1
  | none => 999

structure FamilyResult where
  isRelatedParty : Bool
  degree : Int
  relationshipType : String
  basis : String
deriving DecidableEq

/-- FamilyRelationshipAnalyzer.assess_relationship. The Python guard
`(degree <= MAX) if degree else False` tests the truthiness of the degree,
so 0 would short-circuit to False; we keep that test. -/
def assess_relationship (person1 person2 : Party) : FamilyResult :=
  let rt := person1.relationship_type
  let degree := calculate_degree rt
  let is_related := if degree ≠ 0 then decide (degree ≤ MAX_FAMILY_DEGREE) else false
  { isRelatedParty := is_related
    degree := degree
    relationshipType := rt
    basis :=
      if is_related then "Family relationship - " ++ toString degree ++ " degree"
      else "No family relation within 4th degree" }

end FamilyRelationshipAnalyzer

namespace CorporateRelationshipAnalyzer

structure OwnershipAnalysis where
  isRelated : Bool
  entity1_total_ownership : Int
  entity2_total_ownership : Int
  basis : String
deriving DecidableEq

structure ControlAnalysis where
  isRelated : Bool
  entity1_voting : Int
  entity2_voting : Int
  entity1_profit : Int
  entity2_profit : Int
  basis : String
deriving DecidableEq

structure ManagementAnalysis where
  isRelated : Bool
  entity1_management_control : Int
  entity2_management_control : Int
  basis : String
deriving DecidableEq

structure CorporateResult where
  isRelatedParty : Bool
  ownership : OwnershipAnalysis
  control : ControlAnalysis
  management : ManagementAnalysis
deriving DecidableEq

/-- analyze_ownership: related when either total direct+indirect ownership
reaches the threshold. -/
def analyze_ownership (entity1 entity2 : Party) : OwnershipAnalysis :=
  let total_ownership_1 := entity1.ownership.direct + entity1.ownership.indirect
  let total_ownership_2 := entity2.ownership.direct + entity2.ownership.indirect
  let is_related_1 := decide (total_ownership_1 ≥ OWNERSHIP_THRESHOLD)
  let is_related_2 := decide (total_ownership_2 ≥ OWNERSHIP_THRESHOLD)
  { isRelated := is_related_1 || is_related_2
    entity1_total_ownership := total_ownership_1
    entity2_total_ownership := total_ownership_2
    basis := "Ownership >= 50%" }

/-- analyze_control: related when either voting rights or profit entitlement
of either entity reaches the threshold. -/
def analyze_control (entity1 entity2 : Party) : ControlAnalysis :=
  let is_related_1 :=
    decide (entity1.votingRights ≥ CONTROL_THRESHOLD) ||
      decide (entity1.profitEntitlement ≥ CONTROL_THRESHOLD)
  let is_related_2 :=
    decide (entity2.votingRights ≥ CONTROL_THRESHOLD) ||
      decide (entity2.profitEntitlement ≥ CONTROL_THRESHOLD)
  { isRelated := is_related_1 || is_related_2
    entity1_voting := entity1.votingRights
    entity2_voting := entity2.votingRights
    entity1_profit := entity1.profitEntitlement
    entity2_profit := entity2.profitEntitlement
    basis := "Control through voting rights or profit entitlement >= 50%" }

/-- analyze_management: related when either management control reaches the
threshold. -/
def analyze_management (entity1 entity2 : Party) : ManagementAnalysis :=
  let is_related_1 := decide (entity1.managementControl ≥ CONTROL_THRESHOLD)
  let is_related_2 := decide (entity2.managementControl ≥ CONTROL_THRESHOLD)
  { isRelated := is_related_1 || is_related_2
    entity1_management_control := entity1.managementControl
    entity2_management_control := entity2.managementControl
    basis := "Management control >= 50%" }

/-- CorporateRelationshipAnalyzer.assess_relationship: OR of the three tests. -/
def assess_relationship (entity1 entity2 : Party) : CorporateResult :=
  let ownership_analysis := analyze_ownership entity1 entity2
  let control_analysis := analyze_control entity1 entity2
  let management_analysis := analyze_management entity1 entity2
  { isRelatedParty :=
      ownership_analysis.isRelated || control_analysis.isRelated ||
        management_analysis.isRelated
    ownership := ownership_analysis
    control := control_analysis
    management := management_analysis }

/-- Basis strings of the triggered sub-tests, in the dict iteration order
ownership, control, management, as the orchestrator loop appends them. -/
def basis_list (r : CorporateResult) : List String :=
  (if r.ownership.isRelated then [r.ownership.basis] else []) ++
    (if r.control.isRelated then [r.control.basis] else []) ++
      (if r.management.isRelated then [r.management.basis] else [])

end CorporateRelationshipAnalyzer

namespace ConnectedPersonAnalyzer

structure CheckResult where
  isConnected : Bool
  basis : String
deriving DecidableEq

structure ConnectedResult where
  isConnectedPerson : Bool
  basis : List String
deriving DecidableEq

def check_directorship (person entity : Party) : CheckResult :=
  { isConnected := person.isDirector
    basis := if person.isDirector then "Director relationship" else "" }

def check_officer (person entity : Party) : CheckResult :=
  { isConnected := person.isOfficer
    basis := if person.isOfficer then "Officer relationship" else "" }

def check_ownership (person entity : Party) : CheckResult :=
  let combined_ownership := person.personalOwnership + person.familyOwnership
  let is_connected := decide (combined_ownership ≥ OWNERSHIP_THRESHOLD)
  { isConnected := is_connected
    basis := if is_connected then "Ownership >= 50%" else "" }

/-- ConnectedPersonAnalyzer.assess_connection. -/
def assess_connection (person entity : Party) : ConnectedResult :=
  let directorship_test := check_directorship person entity
  let officer_test := check_officer person entity
  let ownership_test := check_ownership person entity
  { isConnectedPerson :=
      directorship_test.isConnected || officer_test.isConnected ||
        ownership_test.isConnected
    basis :=
      (if directorship_test.isConnected then [directorship_test.basis] else []) ++
        (if officer_test.isConnected then [officer_test.basis] else []) ++
          (if ownership_test.isConnected then [ownership_test.basis] else []) }

end ConnectedPersonAnalyzer

namespace SpecialEntityAnalyzer

/-- assess_permanent_establishment compares the raw type strings. -/
def assess_permanent_establishment (entity1 entity2 : Party) : Bool :=
  entity1.type == "CORPORATE" && entity2.type == "PERMANENT_ESTABLISHMENT"

def assess_partnership (entity1 entity2 : Party) : Bool :=
  entity1.companyType == "Partnership" && entity2.companyType == "Partnership"

def assess_trust_foundation (entity1 entity2 : Party) : Bool :=
  (entity1.companyType == "Trust" || entity1.companyType == "Foundation") ||
    (entity2.companyType == "Trust" || entity2.companyType == "Foundation")

end SpecialEntityAnalyzer

namespace RiskAnalyzer

structure RiskData where
  crossBorder : Bool
  highValueTransactions : Bool
  layersOfOwnership : Int
deriving DecidableEq

structure RiskFactors where
  complexityScore : Int
  crossBorder : Bool
  highValueTransactions : Bool
deriving DecidableEq

structure RiskAssessment where
  riskLevel : String
  factors : RiskFactors
deriving DecidableEq

/-- assess_complexity step function over the ownership-layer count. -/
def assess_complexity (relationship_data : RiskData) : Int :=
  if relationship_data.layersOfOwnership > 3 then 3
  else if relationship_data.layersOfOwnership = 3 then 2
  else 1

/-- RiskAnalyzer.analyze_risk. -/
def analyze_risk (relationship_data : RiskData) : RiskAssessment :=
  let complexity_score := assess_complexity relationship_data
  let cross_border := relationship_data.crossBorder
  let high_value := relationship_data.highValueTransactions
  let risk_level :=
    if complexity_score ≥ 3 || cross_border || high_value then "HIGH"
    else if complexity_score = 2 then "MEDIUM"
    else "LOW"
  { riskLevel := risk_level
    factors :=
      { complexityScore := complexity_score
        crossBorder := cross_border
        highValueTransactions := high_value } }

end RiskAnalyzer

namespace DocumentationAnalyzer

structure DocumentationRequired where
  masterFile : Bool
  localFile : Bool
  disclosureForm : Bool
  additionalDocs : List String
deriving DecidableEq

def is_master_file_required (entity : Party) : Bool :=
  decide (entity.groupConsolidatedRevenue ≥ MNE_GROUP_CONSOLIDATED_THRESHOLD)

def is_local_file_required (entity : Party) : Bool :=
  decide (entity.revenue ≥ REVENUE_THRESHOLD)

/-- is_disclosure_required reads the isRelatedParty flag of the in-progress
result record. -/
def is_disclosure_required (relationship_isRelatedParty : Bool) : Bool :=
  relationship_isRelatedParty

/-- DocumentationAnalyzer.determine_requirements, taking the related-party
flag read out of the in-progress result record. -/
def determine_requirements (entity : Party) (relationship_isRelatedParty : Bool)
    (risk_assessment : RiskAnalyzer.RiskAssessment) : DocumentationRequired :=
  { masterFile := is_master_file_required entity
    localFile := is_local_file_required entity
    disclosureForm := is_disclosure_required relationship_isRelatedParty
    additionalDocs :=
      if risk_assessment.riskLevel = "HIGH" then
        ["Detailed Intercompany Agreement Documentation"]
      else [] }

end DocumentationAnalyzer

namespace TPRelationshipAssessor

structure AssessmentResult where
  isRelatedParty : Bool
  isConnectedPerson : Bool
  basis : List String
  specialCases : List String
  riskAssessment : RiskAnalyzer.RiskAssessment
  documentationRequired : DocumentationAnalyzer.DocumentationRequired
deriving DecidableEq

/-- The type-pair dispatch of assess_relationship: the (isRelatedParty,
isConnectedPerson, basis) triple the branch leaves in the result before the
special-entity pass. -/
def dispatch (party1 party2 : Party) : Bool × Bool × List String :=
  let party1_type := pyUpper party1.type
  let party2_type := pyUpper party2.type
  if party1_type = "INDIVIDUAL" ∧ party2_type = "INDIVIDUAL" then
    let fam_rel := FamilyRelationshipAnalyzer.assess_relationship party1 party2
    if fam_rel.isRelatedParty then (true, false, [fam_rel.basis])
    else (false, false, [])
  else if party1_type = "CORPORATE" ∧ party2_type = "CORPORATE" then
    let corp_rel := CorporateRelationshipAnalyzer.assess_relationship party1 party2
    if corp_rel.isRelatedParty then
      (true, false, CorporateRelationshipAnalyzer.basis_list corp_rel)
    else (false, false, [])
  else if (party1_type = "INDIVIDUAL" ∧ party2_type = "CORPORATE") ∨
      (party1_type = "CORPORATE" ∧ party2_type = "INDIVIDUAL") then
    let connected_rel :=
      if party1_type = "INDIVIDUAL" then
        ConnectedPersonAnalyzer.assess_connection party1 party2
      else ConnectedPersonAnalyzer.assess_connection party2 party1
    let corp_analyzer_result :=
      CorporateRelationshipAnalyzer.assess_relationship party1 party2
    let corp_basis :=
      if corp_analyzer_result.isRelatedParty then
        CorporateRelationshipAnalyzer.basis_list corp_analyzer_result
      else []
    let connected_basis :=
      if connected_rel.isConnectedPerson then connected_rel.basis else []
    (corp_analyzer_result.isRelatedParty, connected_rel.isConnectedPerson,
      corp_basis ++ connected_basis)
  else (false, false, [])

/-- TPRelationshipAssessor.assess_relationship: dispatch, then the
special-entity pass, then risk and documentation. -/
def assess_relationship (party1 party2 : Party) : AssessmentResult :=
  let d := dispatch party1 party2
  let pe := SpecialEntityAnalyzer.assess_permanent_establishment party1 party2
  let pt := SpecialEntityAnalyzer.assess_partnership party1 party2
  let tf := SpecialEntityAnalyzer.assess_trust_foundation party1 party2
  let related := d.1 || pe || pt || tf
  let special_cases :=
    (if pe then ["Permanent Establishment relationship"] else []) ++
      (if pt then ["Partnership relationship"] else []) ++
        (if tf then ["Trust/Foundation relationship"] else [])
  let risk_data : RiskAnalyzer.RiskData :=
    { crossBorder := party1.crossBorder || party2.crossBorder
      highValueTransactions :=
        party1.highValueTransactions || party2.highValueTransactions
      layersOfOwnership :=
        max party1.layersOfOwnership party2.layersOfOwnership }
  let risk_assessment := RiskAnalyzer.analyze_risk risk_data
  let doc_req := DocumentationAnalyzer.determine_requirements party1 related risk_assessment
  { isRelatedParty := related
    isConnectedPerson := d.2.1
    basis := d.2.2
    specialCases := special_cases
    riskAssessment := risk_assessment
    documentationRequired := doc_req }

end TPRelationshipAssessor

end TPA

namespace TPA

open TPRelationshipAssessor SpecialEntityAnalyzer RiskAnalyzer DocumentationAnalyzer

/-! Structural lemmas about the orchestrator, all definitional. -/

lemma assess_isRelatedParty_eq (p1 p2 : Party) :
    (assess_relationship p1 p2).isRelatedParty =
      ((dispatch p1 p2).1 || assess_permanent_establishment p1 p2 ||
        assess_partnership p1 p2 || assess_trust_foundation p1 p2) := rfl

lemma assess_isConnectedPerson_eq (p1 p2 : Party) :
    (assess_relationship p1 p2).isConnectedPerson = (dispatch p1 p2).2.1 := rfl

lemma assess_basis_eq (p1 p2 : Party) :
    (assess_relationship p1 p2).basis = (dispatch p1 p2).2.2 := rfl

lemma assess_specialCases_eq (p1 p2 : Party) :
    (assess_relationship p1 p2).specialCases =
      ((if assess_permanent_establishment p1 p2 then
          ["Permanent Establishment relationship"] else []) ++
        (if assess_partnership p1 p2 then ["Partnership relationship"] else []) ++
          (if assess_trust_foundation p1 p2 then
            ["Trust/Foundation relationship"] else [])) := rfl

lemma assess_riskAssessment_eq (p1 p2 : Party) :
    (assess_relationship p1 p2).riskAssessment =
      RiskAnalyzer.analyze_risk
        { crossBorder := p1.crossBorder || p2.crossBorder
          highValueTransactions :=
            p1.highValueTransactions || p2.highValueTransactions
          layersOfOwnership :=
            max p1.layersOfOwnership p2.layersOfOwnership } := rfl

lemma assess_documentationRequired_eq (p1 p2 : Party) :
    (assess_relationship p1 p2).documentationRequired =
      DocumentationAnalyzer.determine_requirements p1
        (assess_relationship p1 p2).isRelatedParty
        (assess_relationship p1 p2).riskAssessment := rfl

/-! Branch reduction of the dispatch under type hypotheses. -/

lemma dispatch_ind_ind (p1 p2 : Party) (h1 : pyUpper p1.type = "INDIVIDUAL")
    (h2 : pyUpper p2.type = "INDIVIDUAL") :
    dispatch p1 p2 =
      if (FamilyRelationshipAnalyzer.assess_relationship p1 p2).isRelatedParty then
        (true, false, [(FamilyRelationshipAnalyzer.assess_relationship p1 p2).basis])
      else (false, false, []) := by
  simp +decide [dispatch, h1, h2]

lemma dispatch_corp_corp (p1 p2 : Party) (h1 : pyUpper p1.type = "CORPORATE")
    (h2 : pyUpper p2.type = "CORPORATE") :
    dispatch p1 p2 =
      if (CorporateRelationshipAnalyzer.assess_relationship p1 p2).isRelatedParty then
        (true, false,
          CorporateRelationshipAnalyzer.basis_list
            (CorporateRelationshipAnalyzer.assess_relationship p1 p2))
      else (false, false, []) := by
  simp +decide [dispatch, h1, h2]

lemma dispatch_ind_corp (p1 p2 : Party) (h1 : pyUpper p1.type = "INDIVIDUAL")
    (h2 : pyUpper p2.type = "CORPORATE") :
    dispatch p1 p2 =
      ((CorporateRelationshipAnalyzer.assess_relationship p1 p2).isRelatedParty,
        (ConnectedPersonAnalyzer.assess_connection p1 p2).isConnectedPerson,
        (if (CorporateRelationshipAnalyzer.assess_relationship p1 p2).isRelatedParty then
           CorporateRelationshipAnalyzer.basis_list
             (CorporateRelationshipAnalyzer.assess_relationship p1 p2)
         else []) ++
          (if (ConnectedPersonAnalyzer.assess_connection p1 p2).isConnectedPerson then
            (ConnectedPersonAnalyzer.assess_connection p1 p2).basis
          else [])) := by
  simp +decide [dispatch, h1, h2]

lemma dispatch_fallback (p1 p2 : Party)
    (h1 : ¬(pyUpper p1.type = "INDIVIDUAL" ∧ pyUpper p2.type = "INDIVIDUAL"))
    (h2 : ¬(pyUpper p1.type = "CORPORATE" ∧ pyUpper p2.type = "CORPORATE"))
    (h3 : ¬((pyUpper p1.type = "INDIVIDUAL" ∧ pyUpper p2.type = "CORPORATE") ∨
        (pyUpper p1.type = "CORPORATE" ∧ pyUpper p2.type = "INDIVIDUAL"))) :
    dispatch p1 p2 = (false, false, []) := by
  simp only [dispatch]
  rw [if_neg h1, if_neg h2, if_neg h3]

/-! Characterizations of the special-entity predicates. -/

lemma pe_eq_true_iff (p1 p2 : Party) :
    assess_permanent_establishment p1 p2 = true ↔
      (p1.type = "CORPORATE" ∧ p2.type = "PERMANENT_ESTABLISHMENT") := by
  simp [assess_permanent_establishment]

lemma pt_eq_true_iff (p1 p2 : Party) :
    assess_partnership p1 p2 = true ↔
      (p1.companyType = "Partnership" ∧ p2.companyType = "Partnership") := by
  simp [assess_partnership]

lemma tf_eq_true_iff (p1 p2 : Party) :
    assess_trust_foundation p1 p2 = true ↔
      ((p1.companyType = "Trust" ∨ p1.companyType = "Foundation") ∨
        (p2.companyType = "Trust" ∨ p2.companyType = "Foundation")) := by
  simp [assess_trust_foundation]

/-- The corporate analyzer fires exactly when one of the eight threshold
comparisons holds. -/
lemma corporate_related_iff (e1 e2 : Party) :
    (CorporateRelationshipAnalyzer.assess_relationship e1 e2).isRelatedParty = true ↔
      (e1.ownership.direct + e1.ownership.indirect ≥ 50 ∨
        e2.ownership.direct + e2.ownership.indirect ≥ 50 ∨
        e1.votingRights ≥ 50 ∨ e2.votingRights ≥ 50 ∨
        e1.profitEntitlement ≥ 50 ∨ e2.profitEntitlement ≥ 50 ∨
        e1.managementControl ≥ 50 ∨ e2.managementControl ≥ 50) := by
  simp [CorporateRelationshipAnalyzer.assess_relationship,
    CorporateRelationshipAnalyzer.analyze_ownership,
    CorporateRelationshipAnalyzer.analyze_control,
    CorporateRelationshipAnalyzer.analyze_management,
    OWNERSHIP_THRESHOLD, CONTROL_THRESHOLD]
  tauto

end TPA

namespace TPA

open TPRelationshipAssessor SpecialEntityAnalyzer RiskAnalyzer DocumentationAnalyzer

/-- The risk level of analyze_risk as a two-way split on the raw factors. -/
lemma riskLevel_eq (rd : RiskData) :
    (analyze_risk rd).riskLevel =
      if rd.layersOfOwnership > 3 ∨ rd.crossBorder = true ∨ rd.highValueTransactions = true
      then "HIGH"
      else if rd.layersOfOwnership = 3 then "MEDIUM" else "LOW" := by
  rcases rd with ⟨cb, hv, L⟩
  unfold analyze_risk assess_complexity
  rcases cb <;> rcases hv <;> by_cases h3 : L > 3 <;> by_cases he : L = 3 <;>
    simp [h3, he]

/-- Parties used as concrete inputs in witnesses. -/
def indSibling : Party :=
  { emptyParty with type := "INDIVIDUAL", relationship_type := "sibling" }

def indPlain : Party := { emptyParty with type := "INDIVIDUAL" }

def crossBorderParty : Party := { emptyParty with crossBorder := true }

/-- C2: the risk level is HIGH whenever the merged cross-border flag, the
merged high-value flag, or a complexity score of at least 3 holds; it is
MEDIUM exactly when the maximal layer count is 3 and both flags are false;
and it is LOW whenever the maximal layer count is at most 2 and both flags
are false. -/
theorem C2_risk_level (p1 p2 : Party) :
    (((p1.crossBorder || p2.crossBorder) = true ∨
        (p1.highValueTransactions || p2.highValueTransactions) = true ∨
        RiskAnalyzer.assess_complexity
          { crossBorder := p1.crossBorder || p2.crossBorder
            highValueTransactions :=
              p1.highValueTransactions || p2.highValueTransactions
            layersOfOwnership :=
              max p1.layersOfOwnership p2.layersOfOwnership } ≥ 3) →
      (assess_relationship p1 p2).riskAssessment.riskLevel = "HIGH") ∧
    ((assess_relationship p1 p2).riskAssessment.riskLevel = "MEDIUM" ↔
      (max p1.layersOfOwnership p2.layersOfOwnership = 3 ∧
        (p1.crossBorder || p2.crossBorder) = false ∧
        (p1.highValueTransactions || p2.highValueTransactions) = false)) ∧
    ((max p1.layersOfOwnership p2.layersOfOwnership ≤ 2 ∧
        (p1.crossBorder || p2.crossBorder) = false ∧
        (p1.highValueTransactions || p2.highValueTransactions) = false) →
      (assess_relationship p1 p2).riskAssessment.riskLevel = "LOW") := by
  rw [assess_riskAssessment_eq, riskLevel_eq]
  simp only [RiskAnalyzer.assess_complexity]
  rcases hcb : p1.crossBorder || p2.crossBorder <;>
    rcases hhv : p1.highValueTransactions || p2.highValueTransactions <;>
      by_cases h3 : max p1.layersOfOwnership p2.layersOfOwnership > 3 <;>
        by_cases he : max p1.layersOfOwnership p2.layersOfOwnership = 3 <;>
          simp [h3, he] <;> omega

/-- C2 witness: a cross-border party yields HIGH risk. -/
theorem C2_witness :
    (assess_relationship crossBorderParty emptyParty).riskAssessment.riskLevel =
      "HIGH" :=
  (C2_risk_level crossBorderParty emptyParty).1 (Or.inl (by decide))

/-- C4: the documentation record has masterFile exactly at the group
consolidated revenue threshold, localFile exactly at the revenue threshold,
disclosureForm mirroring the related-party flag, and the fixed one-element
additional-docs list exactly when the risk level is HIGH. -/
theorem C4_documentation_requirements (p1 p2 : Party) :
    ((assess_relationship p1 p2).documentationRequired.masterFile = true ↔
      p1.groupConsolidatedRevenue ≥ 3150000000) ∧
    ((assess_relationship p1 p2).documentationRequired.localFile = true ↔
      p1.revenue ≥ 200000000) ∧
    (assess_relationship p1 p2).documentationRequired.disclosureForm =
      (assess_relationship p1 p2).isRelatedParty ∧
    (assess_relationship p1 p2).documentationRequired.additionalDocs =
      (if (assess_relationship p1 p2).riskAssessment.riskLevel = "HIGH" then
        ["Detailed Intercompany Agreement Documentation"]
      else []) := by
  refine ⟨?_, ?_, rfl, rfl⟩
  · simp [assess_documentationRequired_eq, determine_requirements,
      is_master_file_required, MNE_GROUP_CONSOLIDATED_THRESHOLD]
  · simp [assess_documentationRequired_eq, determine_requirements,
      is_local_file_required, REVENUE_THRESHOLD]

/-- C6: for Individual pairs the outcome reads only the first party
relationship label, so varying the second party label changes neither the
related flag nor the basis list, while swapping the parties can flip the
related flag. -/
theorem C6_family_branch_asymmetry :
    (∀ p1 p2 : Party, ∀ l l2 : String,
      pyUpper p1.type = "INDIVIDUAL" → pyUpper p2.type = "INDIVIDUAL" →
      (assess_relationship p1 { p2 with relationship_type := l }).isRelatedParty =
          (assess_relationship p1 { p2 with relationship_type := l2 }).isRelatedParty ∧
        (assess_relationship p1 { p2 with relationship_type := l }).basis =
          (assess_relationship p1 { p2 with relationship_type := l2 }).basis) ∧
    (∃ q1 q2 : Party, pyUpper q1.type = "INDIVIDUAL" ∧ pyUpper q2.type = "INDIVIDUAL" ∧
      (assess_relationship q1 q2).isRelatedParty = true ∧
      (assess_relationship q2 q1).isRelatedParty = false) := by
  constructor
  · intro p1 p2 l l2 h1 h2
    exact ⟨rfl, rfl⟩
  · exact ⟨indSibling, indPlain, by decide, by decide, by decide, by decide⟩

/-- C6 witness: varying the second party label concretely changes nothing. -/
theorem C6_witness :
    (assess_relationship indSibling
        { indPlain with relationship_type := "parent" }).isRelatedParty =
      (assess_relationship indSibling
        { indPlain with relationship_type := "first_cousin" }).isRelatedParty :=
  (C6_family_branch_asymmetry.1 indSibling indPlain ("parent") ("first_cousin")
    (by decide) (by decide)).1

/-- C7: the documentation record never reads the second party revenue
figures, and is the documentation analyzer applied to the first party, the
final related flag, and the risk outcome. -/
theorem C7_doc_ignores_party2_financials (p1 p2 : Party) (r g r2 g2 : Int) :
    (assess_relationship p1
        { p2 with revenue := r, groupConsolidatedRevenue := g }).documentationRequired =
      (assess_relationship p1
        { p2 with revenue := r2, groupConsolidatedRevenue := g2 }).documentationRequired ∧
    (assess_relationship p1 p2).documentationRequired =
      DocumentationAnalyzer.determine_requirements p1
        (assess_relationship p1 p2).isRelatedParty
        (assess_relationship p1 p2).riskAssessment :=
  ⟨rfl, rfl⟩

end TPA

namespace TPA

open TPRelationshipAssessor SpecialEntityAnalyzer

/-- Concrete parties for counterexamples and witnesses. -/
def corpTrust : Party :=
  { emptyParty with type := "CORPORATE", companyType := "Trust" }

def corpPlain : Party := { emptyParty with type := "CORPORATE" }

def corpOwn60 : Party :=
  { emptyParty with type := "CORPORATE", ownership := { direct := 60, indirect := 0 } }

def indTrust : Party :=
  { emptyParty with type := "INDIVIDUAL", companyType := "Trust" }

def pePlain : Party := { emptyParty with type := "PERMANENT_ESTABLISHMENT" }

lemma pe_eq_false_of_type2 (p1 p2 : Party) (h : pyUpper p2.type = "CORPORATE") :
    assess_permanent_establishment p1 p2 = false := by
  rw [Bool.eq_false_iff]
  intro hc
  rcases (pe_eq_true_iff p1 p2).1 hc with ⟨_, hB⟩
  rw [hB] at h
  exact absurd h (by decide)

lemma pe_eq_false_of_type1 (p1 p2 : Party) (h : pyUpper p1.type = "INDIVIDUAL") :
    assess_permanent_establishment p1 p2 = false := by
  rw [Bool.eq_false_iff]
  intro hc
  rcases (pe_eq_true_iff p1 p2).1 hc with ⟨hA, _⟩
  rw [hA] at h
  exact absurd h (by decide)

lemma pt_eq_false_of (p1 p2 : Party)
    (hp : ¬(p1.companyType = "Partnership" ∧ p2.companyType = "Partnership")) :
    assess_partnership p1 p2 = false := by
  rw [Bool.eq_false_iff]
  intro hc
  exact hp ((pt_eq_true_iff p1 p2).1 hc)

lemma tf_eq_false_of (p1 p2 : Party)
    (ht1 : p1.companyType ≠ "Trust") (hf1 : p1.companyType ≠ "Foundation")
    (ht2 : p2.companyType ≠ "Trust") (hf2 : p2.companyType ≠ "Foundation") :
    assess_trust_foundation p1 p2 = false := by
  rw [Bool.eq_false_iff]
  intro hc
  rcases (tf_eq_true_iff p1 p2).1 hc with (h | h) | (h | h) <;> simp_all

/-- C1 counterexample: both types normalize to CORPORATE, every ownership,
voting, profit and management figure is 0, yet the Trust company type makes
the pair related, against the claimed equivalence. -/
theorem C1_counterexample :
    pyUpper corpTrust.type = "CORPORATE" ∧ pyUpper corpPlain.type = "CORPORATE" ∧
    corpTrust.ownership.direct + corpTrust.ownership.indirect = 0 ∧
    corpPlain.ownership.direct + corpPlain.ownership.indirect = 0 ∧
    corpTrust.votingRights = 0 ∧ corpPlain.votingRights = 0 ∧
    corpTrust.profitEntitlement = 0 ∧ corpPlain.profitEntitlement = 0 ∧
    corpTrust.managementControl = 0 ∧ corpPlain.managementControl = 0 ∧
    (assess_relationship corpTrust corpPlain).isRelatedParty = true := by
  decide

/-- C1 amended: for Corporate/Corporate pairs on which no special-entity
predicate fires (no Trust or Foundation company type, not both
Partnership), the related flag holds exactly when one of the eight
threshold comparisons holds; with all figures 0 it is false. -/
theorem C1_corporate_pair_related_iff (p1 p2 : Party)
    (h1 : pyUpper p1.type = "CORPORATE") (h2 : pyUpper p2.type = "CORPORATE")
    (ht1 : p1.companyType ≠ "Trust") (hf1 : p1.companyType ≠ "Foundation")
    (ht2 : p2.companyType ≠ "Trust") (hf2 : p2.companyType ≠ "Foundation")
    (hp : ¬(p1.companyType = "Partnership" ∧ p2.companyType = "Partnership")) :
    (assess_relationship p1 p2).isRelatedParty = true ↔
      (p1.ownership.direct + p1.ownership.indirect ≥ 50 ∨
        p2.ownership.direct + p2.ownership.indirect ≥ 50 ∨
        p1.votingRights ≥ 50 ∨ p2.votingRights ≥ 50 ∨
        p1.profitEntitlement ≥ 50 ∨ p2.profitEntitlement ≥ 50 ∨
        p1.managementControl ≥ 50 ∨ p2.managementControl ≥ 50) := by
  rw [assess_isRelatedParty_eq, dispatch_corp_corp p1 p2 h1 h2,
    pe_eq_false_of_type2 p1 p2 h2, pt_eq_false_of p1 p2 hp,
    tf_eq_false_of p1 p2 ht1 hf1 ht2 hf2, ← corporate_related_iff p1 p2]
  rcases hb : (CorporateRelationshipAnalyzer.assess_relationship p1 p2).isRelatedParty <;>
    simp [hb]

/-- C1 witness: direct ownership of 60 makes a plain corporate pair related. -/
theorem C1_witness :
    (assess_relationship corpOwn60 corpPlain).isRelatedParty = true :=
  (C1_corporate_pair_related_iff corpOwn60 corpPlain (by decide) (by decide)
    (by decide) (by decide) (by decide) (by decide) (by decide)).2
    (Or.inl (by decide))

end TPA

namespace TPA

open TPRelationshipAssessor SpecialEntityAnalyzer

/-- calculate_degree only takes the four table degrees or the 999 sentinel. -/
lemma calculate_degree_cases (l : String) :
    FamilyRelationshipAnalyzer.calculate_degree l = 1 ∨
      FamilyRelationshipAnalyzer.calculate_degree l = 2 ∨
      FamilyRelationshipAnalyzer.calculate_degree l = 3 ∨
      FamilyRelationshipAnalyzer.calculate_degree l = 4 ∨
      FamilyRelationshipAnalyzer.calculate_degree l = 999 := by
  unfold FamilyRelationshipAnalyzer.calculate_degree
    FamilyRelationshipAnalyzer.family_degrees
  simp only [List.find?]
  rcases h1 : ["parent", "child", "spouse_parent", "spouse_child"].contains l <;>
    rcases h2 : ["grandparent", "grandchild", "sibling", "spouse_sibling"].contains l <;>
      rcases h3 : ["great_grandparent", "great_grandchild", "uncle", "aunt", "niece",
          "nephew"].contains l <;>
        rcases h4 : ["great_great_grandparent", "great_great_grandchild",
            "first_cousin"].contains l <;>
          simp [h1, h2, h3, h4]

/-- The family related flag is the degree comparison: the truthiness guard
never fires because the degree is never 0. -/
lemma family_isRelated_eq (p1 p2 : Party) :
    (FamilyRelationshipAnalyzer.assess_relationship p1 p2).isRelatedParty =
      decide (FamilyRelationshipAnalyzer.calculate_degree p1.relationship_type ≤
        MAX_FAMILY_DEGREE) := by
  unfold FamilyRelationshipAnalyzer.assess_relationship
  rcases calculate_degree_cases p1.relationship_type with h | h | h | h | h <;>
    simp [h, MAX_FAMILY_DEGREE]

/-- The family basis string when the degree is within the maximum. -/
lemma family_basis_eq (p1 p2 : Party)
    (h : FamilyRelationshipAnalyzer.calculate_degree p1.relationship_type ≤
      MAX_FAMILY_DEGREE) :
    (FamilyRelationshipAnalyzer.assess_relationship p1 p2).basis =
      "Family relationship - " ++
        toString (FamilyRelationshipAnalyzer.calculate_degree p1.relationship_type) ++
          " degree" := by
  unfold FamilyRelationshipAnalyzer.assess_relationship
  rcases calculate_degree_cases p1.relationship_type with hd | hd | hd | hd | hd <;>
    simp [hd, MAX_FAMILY_DEGREE] <;> simp [hd, MAX_FAMILY_DEGREE] at h

/-- C3 counterexample: two Individual parties, the first with an
unrecognized (empty) relationship label mapping to degree 999, are still
related because of a Trust company type, against the claimed false outcome
for unrecognized labels. -/
theorem C3_counterexample :
    pyUpper indTrust.type = "INDIVIDUAL" ∧ pyUpper indPlain.type = "INDIVIDUAL" ∧
    FamilyRelationshipAnalyzer.calculate_degree indTrust.relationship_type = 999 ∧
    (assess_relationship indTrust indPlain).isRelatedParty = true := by
  decide

/-- C3 amended: for Individual pairs on which no special-entity predicate
fires, the related flag holds exactly when the first party label is
recognized within the maximal family degree; the basis then names the
degree, and an unrecognized label maps to the 999 sentinel. -/
theorem C3_family_label_iff (p1 p2 : Party)
    (h1 : pyUpper p1.type = "INDIVIDUAL") (h2 : pyUpper p2.type = "INDIVIDUAL")
    (ht1 : p1.companyType ≠ "Trust") (hf1 : p1.companyType ≠ "Foundation")
    (ht2 : p2.companyType ≠ "Trust") (hf2 : p2.companyType ≠ "Foundation")
    (hp : ¬(p1.companyType = "Partnership" ∧ p2.companyType = "Partnership")) :
    ((assess_relationship p1 p2).isRelatedParty = true ↔
      FamilyRelationshipAnalyzer.calculate_degree p1.relationship_type ≤
        MAX_FAMILY_DEGREE) ∧
    (FamilyRelationshipAnalyzer.calculate_degree p1.relationship_type ≤
        MAX_FAMILY_DEGREE →
      (assess_relationship p1 p2).basis =
        ["Family relationship - " ++
          toString (FamilyRelationshipAnalyzer.calculate_degree
            p1.relationship_type) ++ " degree"]) ∧
    (FamilyRelationshipAnalyzer.calculate_degree p1.relationship_type ≤
        MAX_FAMILY_DEGREE ∨
      FamilyRelationshipAnalyzer.calculate_degree p1.relationship_type = 999) := by
  have hpe := pe_eq_false_of_type1 p1 p2 h1
  have hpt := pt_eq_false_of p1 p2 hp
  have htf := tf_eq_false_of p1 p2 ht1 hf1 ht2 hf2
  refine ⟨?_, ?_, ?_⟩
  · rw [assess_isRelatedParty_eq, dispatch_ind_ind p1 p2 h1 h2, hpe, hpt, htf]
    rcases hb : (FamilyRelationshipAnalyzer.assess_relationship p1 p2).isRelatedParty <;>
      rw [family_isRelated_eq] at hb <;> simp [hb] <;> simp at hb <;> exact hb
  · intro h
    rw [assess_basis_eq, dispatch_ind_ind p1 p2 h1 h2]
    have hb : (FamilyRelationshipAnalyzer.assess_relationship p1 p2).isRelatedParty =
        true := by
      rw [family_isRelated_eq]
      simp [h]
    simp [hb, family_basis_eq p1 p2 h]
  · rcases calculate_degree_cases p1.relationship_type with h | h | h | h | h <;>
      rw [h] <;> simp [MAX_FAMILY_DEGREE]

/-- C3 witness: a sibling label yields the related flag. -/
theorem C3_witness :
    (assess_relationship indSibling indPlain).isRelatedParty = true :=
  (C3_family_label_iff indSibling indPlain (by decide) (by decide) (by decide)
    (by decide) (by decide) (by decide) (by decide)).1.mpr (by decide)

end TPA

namespace TPA

open TPRelationshipAssessor SpecialEntityAnalyzer

/-- C5 counterexample: in the Individual/Corporate branch the corporate
analyzer run on the raw pair does fire when the corporate side reports 60
percent direct ownership, setting the related flag and appending the
ownership basis, against the claimed structurally-guaranteed not-related
sub-result. -/
theorem C5_counterexample :
    pyUpper indPlain.type = "INDIVIDUAL" ∧ pyUpper corpOwn60.type = "CORPORATE" ∧
    (CorporateRelationshipAnalyzer.assess_relationship indPlain corpOwn60).isRelatedParty =
      true ∧
    (assess_relationship indPlain corpOwn60).isRelatedParty = true ∧
    (assess_relationship indPlain corpOwn60).basis = ["Ownership >= 50%"] ∧
    (assess_relationship indPlain corpOwn60).isConnectedPerson = false ∧
    (assess_relationship indPlain corpOwn60).specialCases = [] := by
  decide

/-- Branch reduction of the dispatch for the Corporate/Individual ordering
of the mixed branch: the connected test then runs with the second party as
the person and the first as the entity. -/
lemma dispatch_corp_ind (p1 p2 : Party) (h1 : pyUpper p1.type = "CORPORATE")
    (h2 : pyUpper p2.type = "INDIVIDUAL") :
    dispatch p1 p2 =
      ((CorporateRelationshipAnalyzer.assess_relationship p1 p2).isRelatedParty,
        (ConnectedPersonAnalyzer.assess_connection p2 p1).isConnectedPerson,
        (if (CorporateRelationshipAnalyzer.assess_relationship p1 p2).isRelatedParty then
           CorporateRelationshipAnalyzer.basis_list
             (CorporateRelationshipAnalyzer.assess_relationship p1 p2)
         else []) ++
          (if (ConnectedPersonAnalyzer.assess_connection p2 p1).isConnectedPerson then
            (ConnectedPersonAnalyzer.assess_connection p2 p1).basis
          else [])) := by
  simp +decide [dispatch, h1, h2]

/-- C5 amended: in the mixed branch — Individual/Corporate in either order —
the related flag left by the dispatch is exactly the corporate analyzer
sub-result on the raw pair, and when the individual side carries no
ownership, voting, profit or management figures (they default to 0) the
sub-result fires exactly when one of the corporate side figures reaches its
threshold — so it is a no-op only when they all stay below 50. -/
theorem C5_mixed_corporate_subresult (p1 p2 : Party)
    (h : (pyUpper p1.type = "INDIVIDUAL" ∧ pyUpper p2.type = "CORPORATE") ∨
      (pyUpper p1.type = "CORPORATE" ∧ pyUpper p2.type = "INDIVIDUAL")) :
    (dispatch p1 p2).1 =
      (CorporateRelationshipAnalyzer.assess_relationship p1 p2).isRelatedParty ∧
    (p1.ownership.direct = 0 → p1.ownership.indirect = 0 → p1.votingRights = 0 →
      p1.profitEntitlement = 0 → p1.managementControl = 0 →
      ((CorporateRelationshipAnalyzer.assess_relationship p1 p2).isRelatedParty = true ↔
        (p2.ownership.direct + p2.ownership.indirect ≥ 50 ∨ p2.votingRights ≥ 50 ∨
          p2.profitEntitlement ≥ 50 ∨ p2.managementControl ≥ 50))) ∧
    (p2.ownership.direct = 0 → p2.ownership.indirect = 0 → p2.votingRights = 0 →
      p2.profitEntitlement = 0 → p2.managementControl = 0 →
      ((CorporateRelationshipAnalyzer.assess_relationship p1 p2).isRelatedParty = true ↔
        (p1.ownership.direct + p1.ownership.indirect ≥ 50 ∨ p1.votingRights ≥ 50 ∨
          p1.profitEntitlement ≥ 50 ∨ p1.managementControl ≥ 50))) := by
  refine ⟨?_, ?_, ?_⟩
  · rcases h with ⟨h1, h2⟩ | ⟨h1, h2⟩
    · rw [dispatch_ind_corp p1 p2 h1 h2]
    · rw [dispatch_corp_ind p1 p2 h1 h2]
  · intro ho1 ho2 hv hpr hm
    rw [corporate_related_iff p1 p2, ho1, ho2, hv, hpr, hm]
    norm_num
  · intro ho1 ho2 hv hpr hm
    rw [corporate_related_iff p1 p2, ho1, ho2, hv, hpr, hm]
    norm_num

/-- C5 witness: in the Corporate/Individual ordering, the corporate side
reaching the ownership threshold fires the corporate sub-test. -/
theorem C5_witness :
    (CorporateRelationshipAnalyzer.assess_relationship corpOwn60 indPlain).isRelatedParty =
      true :=
  ((C5_mixed_corporate_subresult corpOwn60 indPlain
      (Or.inr ⟨by decide, by decide⟩)).2.2 (by decide) (by decide) (by decide)
    (by decide) (by decide)).mpr (Or.inl (by decide))

/-- C8: when the normalized type pair matches no dispatch branch, no
relationship test runs — the connected flag is false and the basis empty —
the related flag is exactly the disjunction of the three special-entity
predicates, and risk and documentation are still computed on a complete
result. -/
theorem C8_fallback_behavior (p1 p2 : Party)
    (h1 : ¬(pyUpper p1.type = "INDIVIDUAL" ∧ pyUpper p2.type = "INDIVIDUAL"))
    (h2 : ¬(pyUpper p1.type = "CORPORATE" ∧ pyUpper p2.type = "CORPORATE"))
    (h3 : ¬((pyUpper p1.type = "INDIVIDUAL" ∧ pyUpper p2.type = "CORPORATE") ∨
        (pyUpper p1.type = "CORPORATE" ∧ pyUpper p2.type = "INDIVIDUAL"))) :
    (assess_relationship p1 p2).isConnectedPerson = false ∧
    (assess_relationship p1 p2).basis = [] ∧
    (assess_relationship p1 p2).isRelatedParty =
      (assess_permanent_establishment p1 p2 || assess_partnership p1 p2 ||
        assess_trust_foundation p1 p2) ∧
    (assess_relationship p1 p2).riskAssessment =
      RiskAnalyzer.analyze_risk
        { crossBorder := p1.crossBorder || p2.crossBorder
          highValueTransactions :=
            p1.highValueTransactions || p2.highValueTransactions
          layersOfOwnership :=
            max p1.layersOfOwnership p2.layersOfOwnership } ∧
    (assess_relationship p1 p2).documentationRequired =
      DocumentationAnalyzer.determine_requirements p1
        (assess_relationship p1 p2).isRelatedParty
        (assess_relationship p1 p2).riskAssessment := by
  have hd := dispatch_fallback p1 p2 h1 h2 h3
  refine ⟨?_, ?_, ?_, assess_riskAssessment_eq p1 p2,
    assess_documentationRequired_eq p1 p2⟩
  · rw [assess_isConnectedPerson_eq, hd]
  · rw [assess_basis_eq, hd]
  · rw [assess_isRelatedParty_eq, hd]
    simp

/-- C8 witness: a Permanent Establishment first party with a plain corporate
second party runs no relationship test. -/
theorem C8_witness :
    (assess_relationship pePlain corpPlain).isConnectedPerson = false ∧
    (assess_relationship pePlain corpPlain).basis = [] :=
  ⟨(C8_fallback_behavior pePlain corpPlain (by decide) (by decide) (by decide)).1,
    (C8_fallback_behavior pePlain corpPlain (by decide) (by decide) (by decide)).2.1⟩

end TPA

namespace TPA

open TPRelationshipAssessor SpecialEntityAnalyzer

/-- Membership of the permanent-establishment label in specialCases is
exactly the permanent-establishment predicate. -/
lemma pe_label_mem_iff (p1 p2 : Party) :
    ("Permanent Establishment relationship" ∈
        (assess_relationship p1 p2).specialCases) ↔
      assess_permanent_establishment p1 p2 = true := by
  rw [assess_specialCases_eq]
  rcases hpe : assess_permanent_establishment p1 p2 <;>
    rcases hpt : assess_partnership p1 p2 <;>
      rcases htf : assess_trust_foundation p1 p2 <;> simp

/-- C9: the permanent-establishment label is appended, and the related flag
forced, exactly when the first party raw type is CORPORATE and the second
raw type is PERMANENT_ESTABLISHMENT; in the reverse ordering it never
fires. -/
theorem C9_pe_rule_directional (p1 p2 : Party) :
    (("Permanent Establishment relationship" ∈
        (assess_relationship p1 p2).specialCases) ↔
      (p1.type = "CORPORATE" ∧ p2.type = "PERMANENT_ESTABLISHMENT")) ∧
    ("Permanent Establishment relationship" ∈
        (assess_relationship p1 p2).specialCases →
      (assess_relationship p1 p2).isRelatedParty = true) ∧
    (p1.type = "PERMANENT_ESTABLISHMENT" ∧ p2.type = "CORPORATE" →
      "Permanent Establishment relationship" ∉
        (assess_relationship p1 p2).specialCases) := by
  refine ⟨(pe_label_mem_iff p1 p2).trans (pe_eq_true_iff p1 p2), ?_, ?_⟩
  · intro h
    have hpe := (pe_label_mem_iff p1 p2).1 h
    rw [assess_isRelatedParty_eq, hpe]
    simp
  · rintro ⟨hA, _⟩ h
    have hpe := (pe_eq_true_iff p1 p2).1 ((pe_label_mem_iff p1 p2).1 h)
    rw [hA] at hpe
    exact absurd hpe.1 (by decide)

/-- C9 witness: a corporate first party with a permanent-establishment
second party fires the rule. -/
theorem C9_witness :
    "Permanent Establishment relationship" ∈
      (assess_relationship corpPlain pePlain).specialCases :=
  (C9_pe_rule_directional corpPlain pePlain).1.mpr ⟨by decide, by decide⟩

/-- Lowercase variants used by the C10 theorems. -/
def lcCorp : Party := { emptyParty with type := "corporate" }

def lcPE : Party := { emptyParty with type := "permanent_establishment" }

/-- C10: lowercase corporate and permanent_establishment type strings still
reach the fallback branch of the case-insensitive dispatch, but the
special-entity predicates compare the raw strings, so (absent Partnership,
Trust or Foundation company types) nothing fires: the result is not related
and has no special cases. -/
theorem C10_lowercase_pe_no_fire (p1 p2 : Party)
    (h1 : p1.type = "corporate") (h2 : p2.type = "permanent_establishment")
    (ht1 : p1.companyType ≠ "Trust") (hf1 : p1.companyType ≠ "Foundation")
    (ht2 : p2.companyType ≠ "Trust") (hf2 : p2.companyType ≠ "Foundation")
    (hp : ¬(p1.companyType = "Partnership" ∧ p2.companyType = "Partnership")) :
    dispatch p1 p2 = (false, false, []) ∧
    (assess_relationship p1 p2).isRelatedParty = false ∧
    (assess_relationship p1 p2).specialCases = [] := by
  have hu1 : pyUpper p1.type = "CORPORATE" := by rw [h1]; decide
  have hu2 : pyUpper p2.type = "PERMANENT_ESTABLISHMENT" := by rw [h2]; decide
  have hd : dispatch p1 p2 = (false, false, []) := by
    refine dispatch_fallback p1 p2 ?_ ?_ ?_ <;> rw [hu1, hu2] <;> decide
  have hpe : assess_permanent_establishment p1 p2 = false := by
    simp +decide [assess_permanent_establishment, h1]
  have hpt := pt_eq_false_of p1 p2 hp
  have htf := tf_eq_false_of p1 p2 ht1 hf1 ht2 hf2
  refine ⟨hd, ?_, ?_⟩
  · rw [assess_isRelatedParty_eq, hd, hpe, hpt, htf]
    simp
  · rw [assess_specialCases_eq, hpe, hpt, htf]
    simp

/-- C10 witness: concrete lowercase pair yields no special case and no
related flag. -/
theorem C10_witness :
    (assess_relationship lcCorp lcPE).isRelatedParty = false ∧
    (assess_relationship lcCorp lcPE).specialCases = [] :=
  ⟨(C10_lowercase_pe_no_fire lcCorp lcPE (by decide) (by decide) (by decide)
      (by decide) (by decide) (by decide) (by decide)).2.1,
    (C10_lowercase_pe_no_fire lcCorp lcPE (by decide) (by decide) (by decide)
      (by decide) (by decide) (by decide) (by decide)).2.2⟩

end TPA
